import Mathlib

/-!
Verification of the Bloom dependency-injection core: a shallow embedding of
the container registry merge protocol, type-based dependency resolution,
scope contexts and resource closing, singleton factories, proxies, and the
lifecycle shutdown walk, with theorems settling the specified properties.
-/

namespace Bloom

/-! ## Container type hierarchy (src/bloom/core/container)

The concrete container classes are `Container` (plain), `HandlerContainer`,
`FactoryContainer` and `ConfigurationContainer`; the latter three each
subclass `Container` directly and stand in no relation to one another. -/

/-- Decidable equality for `Except`, used to evaluate embedded operations
on concrete inputs. -/
instance instDecEqExcept {e a : Type} [DecidableEq e] [DecidableEq a] :
    DecidableEq (Except e a) := fun x y =>
  match x, y with
  | Except.ok v, Except.ok w =>
    if h : v = w then Decidable.isTrue (h ▸ rfl)
    else Decidable.isFalse (fun hc => h (by injection hc))
  | Except.ok _, Except.error _ =>
    Decidable.isFalse (fun hc => Except.noConfusion hc)
  | Except.error _, Except.ok _ =>
    Decidable.isFalse (fun hc => Except.noConfusion hc)
  | Except.error v, Except.error w =>
    if h : v = w then Decidable.isTrue (h ▸ rfl)
    else Decidable.isFalse (fun hc => h (by injection hc))

/-- Concrete container class of a registered descriptor. -/
inductive CType where
  | plain
  | handler
  | factory
  | configuration
  deriving DecidableEq, Repr

/-- Python `issubclass` on the container classes: reflexive, and every
class is a subclass of the plain base `Container`. -/
def isSubclass (a b : CType) : Bool :=
  a == b || b == CType.plain

/-- A Container descriptor: `tag` models Python object identity, `ctype`
its concrete class, `elements` the ordered element list
(`base.py, Container.elements`; values abstracted to `Nat`). -/
structure Cont where
  tag : Nat
  ctype : CType
  elements : List (String × Nat)
  deriving DecidableEq, Repr

/-- `Container.can_transfer_to` (base.py lines 124-144): same type, or the
other type is a subclass of self's type. -/
def canTransferTo (selfT otherT : CType) : Bool :=
  selfT == otherT || isSubclass otherT selfT

/-- `Container.can_absorb_from` (base.py lines 146-166): same type, or
self's type is a subclass of the other's type. -/
def canAbsorbFrom (selfT otherT : CType) : Bool :=
  selfT == otherT || isSubclass selfT otherT

/-- `Container.absorb_elements_from` (base.py lines 168-178): append every
element of `other` onto `self`, or raise `ContainerTransferError` when the
absorb check fails. -/
def absorbElementsFrom (self other : Cont) : Except String Cont :=
  if canAbsorbFrom self.ctype other.ctype then
    Except.ok { self with elements := self.elements ++ other.elements }
  else
    Except.error "ContainerTransferError"

/-- `Container.transfer_or_absorb` (base.py lines 180-239) restricted to the
case where a container for the same `(target, component_id)` already exists
(`existing = some e`) or not (`existing = none`). The result carries the
returned container and the new registry-slot content. -/
def transferOrAbsorb (existing : Option Cont) (n : Cont) :
    Except String (Cont × Option Cont) :=
  match existing with
  | none => Except.ok (n, some n)
  | some e =>
    if e.ctype == n.ctype then
      let merged := { e with elements := e.elements ++ n.elements }
      Except.ok (merged, some merged)
    else if canTransferTo e.ctype n.ctype then
      match absorbElementsFrom n e with
      | Except.ok n2 => Except.ok (n2, some n2)
      | Except.error s => Except.error s
    else if canAbsorbFrom e.ctype n.ctype then
      match absorbElementsFrom e n with
      | Except.ok e2 => Except.ok (e2, some e2)
      | Except.error s => Except.error s
    else
      Except.error "ContainerTransferError"

/-- Registry slot after a registration attempt: unchanged when
`transfer_or_absorb` raises. -/
def slotAfter (existing : Option Cont) (n : Cont) : Option Cont :=
  match transferOrAbsorb existing n with
  | Except.ok p => p.2
  | Except.error _ => existing

end Bloom

namespace Bloom

/-- C1: container merge protocol. With an existing container `E` for the
same `(target, id)`: (a) same concrete type merges N's elements into E and
returns E; (b) N's type a strict subclass of E's type makes N absorb E's
elements, replaces the slot with N and returns N; (c) E's type a strict
subclass of N's type makes E absorb N's elements in place and returns E;
(d) with no ancestor relation registration raises `ContainerTransferError`
and the slot is unchanged. -/
theorem c1_container_merge_protocol (e n : Cont) :
    (e.ctype = n.ctype →
      transferOrAbsorb (some e) n =
        Except.ok ({ e with elements := e.elements ++ n.elements },
          some { e with elements := e.elements ++ n.elements })) ∧
    (isSubclass n.ctype e.ctype = true → n.ctype ≠ e.ctype →
      transferOrAbsorb (some e) n =
        Except.ok ({ n with elements := n.elements ++ e.elements },
          some { n with elements := n.elements ++ e.elements })) ∧
    (isSubclass e.ctype n.ctype = true → e.ctype ≠ n.ctype →
      transferOrAbsorb (some e) n =
        Except.ok ({ e with elements := e.elements ++ n.elements },
          some { e with elements := e.elements ++ n.elements })) ∧
    (isSubclass n.ctype e.ctype = false → isSubclass e.ctype n.ctype = false →
      transferOrAbsorb (some e) n = Except.error "ContainerTransferError" ∧
      slotAfter (some e) n = some e) := by
  obtain ⟨et, ec, ee⟩ := e
  obtain ⟨nt, nc, ne⟩ := n
  refine ⟨?_, ?_, ?_, ?_⟩ <;>
    · intros
      cases ec <;> cases nc <;>
        simp_all [transferOrAbsorb, slotAfter, canTransferTo, canAbsorbFrom,
          absorbElementsFrom, isSubclass]

/-- C1 witness: concrete runs of the four merge cases — promotion of a plain
container to a handler container (transfer), a handler absorbing a plain
registration, an idempotent re-registration, and a handler/factory clash. -/
theorem c1_container_merge_protocol_witness :
    transferOrAbsorb (some ⟨0, CType.plain, [("scope", 1)]⟩)
        ⟨1, CType.handler, [("path", 2)]⟩ =
      Except.ok (⟨1, CType.handler, [("path", 2), ("scope", 1)]⟩,
        some ⟨1, CType.handler, [("path", 2), ("scope", 1)]⟩) ∧
    transferOrAbsorb (some ⟨2, CType.handler, [("path", 2)]⟩)
        ⟨3, CType.plain, [("scope", 1)]⟩ =
      Except.ok (⟨2, CType.handler, [("path", 2), ("scope", 1)]⟩,
        some ⟨2, CType.handler, [("path", 2), ("scope", 1)]⟩) ∧
    transferOrAbsorb (some ⟨4, CType.plain, [("scope", 1)]⟩)
        ⟨5, CType.plain, [("primary", 1)]⟩ =
      Except.ok (⟨4, CType.plain, [("scope", 1), ("primary", 1)]⟩,
        some ⟨4, CType.plain, [("scope", 1), ("primary", 1)]⟩) ∧
    (transferOrAbsorb (some ⟨6, CType.handler, []⟩) ⟨7, CType.factory, []⟩ =
      Except.error "ContainerTransferError" ∧
     slotAfter (some ⟨6, CType.handler, []⟩) ⟨7, CType.factory, []⟩ =
      some ⟨6, CType.handler, []⟩) := by
  refine ⟨?_, ?_, ?_, ?_⟩
  · exact (c1_container_merge_protocol ⟨0, CType.plain, [("scope", 1)]⟩
      ⟨1, CType.handler, [("path", 2)]⟩).2.1 (by decide) (by decide)
  · exact (c1_container_merge_protocol ⟨2, CType.handler, [("path", 2)]⟩
      ⟨3, CType.plain, [("scope", 1)]⟩).2.2.1 (by decide) (by decide)
  · exact (c1_container_merge_protocol ⟨4, CType.plain, [("scope", 1)]⟩
      ⟨5, CType.plain, [("primary", 1)]⟩).1 (by decide)
  · exact (c1_container_merge_protocol ⟨6, CType.handler, []⟩
      ⟨7, CType.factory, []⟩).2.2.2 (by decide) (by decide)

end Bloom

namespace Bloom

/-! ## Scopes and scope contexts (src/bloom/core/container/scope.py) -/

/-- Instance scope (`scope.py, class Scope`). -/
inductive Scope where
  | SINGLETON
  | CALL
  | REQUEST
  deriving DecidableEq, Repr

/-- A resource registered with a `ScopeContext`: `rid` models object
identity, `isAuto` whether `isinstance(instance, AutoCloseable)` holds, and
`failsOnClose` whether its exit hook raises. -/
structure Res where
  rid : Nat
  isAuto : Bool
  failsOnClose : Bool
  deriving DecidableEq, Repr

/-- Exit hook of a resource, which may raise. -/
def closeOne (r : Res) : Except String Unit :=
  if r.failsOnClose then Except.error "close failed" else Except.ok ()

/-- Body of the `for instance in reversed(self._closeables)` loop of
`ScopeContext.close_all` (scope.py lines 185-196), on an already-reversed
list: each `AutoCloseable` instance has its exit hook invoked inside a
try/except whose handler discards the error, so the loop continues in both
branches. Returns the sequence of invoked exit hooks. -/
def closeSeq : List Res → List Nat
  | [] => []
  | r :: rest =>
    if r.isAuto then
      match closeOne r with
      | Except.ok _ => r.rid :: closeSeq rest
      | Except.error _ => r.rid :: closeSeq rest
    else
      closeSeq rest

/-- `ScopeContext.close_all`: iterate the registered closeables in reverse
registration order. -/
def closeAll (closeables : List Res) : List Nat :=
  closeSeq closeables.reverse

/-- `CallScopeManager.__exit__` semantics inside a `with` statement
(scope.py lines 331-336): whatever the body did (`Except.ok` for a normal
return, `Except.error` for a raised error), `close_all` runs on the
context's closeables and the body outcome then propagates unchanged. The
pair carries the propagated outcome and the sequence of exit-hook calls. -/
def withCallScope (closeables : List Res) (body : Except Nat Unit) :
    Except Nat Unit × List Nat :=
  (body, closeAll closeables)

theorem closeSeq_eq_filter_map (l : List Res) :
    closeSeq l = (l.filter (fun r => r.isAuto)).map (fun r => r.rid) := by
  induction l with
  | nil => rfl
  | cons r rest ih =>
    by_cases h : r.isAuto = true
    · simp [closeSeq, h, closeOne, ih]
      split <;> rfl
    · simp at h
      simp [closeSeq, h, ih]

/-- C3: on scope exit, all registered closeable resources are closed in
strict reverse registration order — the close sequence is the reverse of
the registration sequence (restricted to closeables), every registered
closeable is closed even when closing another one raised, and the sequence
is the same whether the body exited normally or with an error, which then
propagates unchanged. -/
theorem c3_lifo_close_on_every_exit (closeables : List Res)
    (body : Except Nat Unit) :
    (withCallScope closeables body).2 =
      (closeables.reverse.filter (fun r => r.isAuto)).map (fun r => r.rid) ∧
    (∀ r, r ∈ closeables → r.isAuto = true →
      r.rid ∈ (withCallScope closeables body).2) ∧
    (withCallScope closeables body).1 = body := by
  refine ⟨?_, ?_, rfl⟩
  · simp [withCallScope, closeAll, closeSeq_eq_filter_map]
  · intro r hr hauto
    simp [withCallScope, closeAll, closeSeq_eq_filter_map]
    exact ⟨r, ⟨hr, hauto⟩, rfl⟩

/-- C3 witness: three closeables registered in order A, B, C (B's close
hook raising) are closed in order C, B, A, both on a normal body exit and
on a body that raised error 7, which still propagates. -/
theorem c3_lifo_close_on_every_exit_witness :
    withCallScope [⟨1, true, false⟩, ⟨2, true, true⟩, ⟨3, true, false⟩]
        (Except.ok ()) = (Except.ok (), [3, 2, 1]) ∧
    withCallScope [⟨1, true, false⟩, ⟨2, true, true⟩, ⟨3, true, false⟩]
        (Except.error 7) = (Except.error 7, [3, 2, 1]) ∧
    (⟨2, true, true⟩ : Res).rid ∈
      (withCallScope [⟨1, true, false⟩, ⟨2, true, true⟩, ⟨3, true, false⟩]
        (Except.error 7)).2 := by
  have h1 := c3_lifo_close_on_every_exit
    [⟨1, true, false⟩, ⟨2, true, true⟩, ⟨3, true, false⟩] (Except.ok ())
  have h2 := c3_lifo_close_on_every_exit
    [⟨1, true, false⟩, ⟨2, true, true⟩, ⟨3, true, false⟩] (Except.error 7)
  refine ⟨?_, ?_, ?_⟩
  · have := h1.1
    have hb := h1.2.2
    simp at this
    exact Prod.ext hb (by simpa using this)
  · have := h2.1
    have hb := h2.2.2
    simp at this
    exact Prod.ext hb (by simpa using this)
  · exact h2.2.1 ⟨2, true, true⟩ (by simp) rfl

/-! ## Task-local scope context variables and managers (scope.py) -/

/-- Task-local context variables relevant to scope lookup: the REQUEST,
CALL and transactional context variables (scope.py lines 222-234), each
holding the identity of the active `ScopeContext` or nothing, plus a
counter used to mint fresh context identities. -/
structure ScopeVars where
  requestVar : Option Nat
  callVar : Option Nat
  txVar : Option Nat
  nextId : Nat
  deriving DecidableEq, Repr

/-- `get_scope_context` (scope.py lines 267-277): REQUEST reads the request
variable; CALL prefers an active transactional context, else the call
variable; any other scope yields nothing. -/
def getScopeContext (scope : Scope) (s : ScopeVars) : Option Nat :=
  match scope with
  | Scope.REQUEST => s.requestVar
  | Scope.CALL =>
    match s.txVar with
    | some t => some t
    | none => s.callVar
  | Scope.SINGLETON => none

/-- A `CallScopeManager` (or `RequestScopeManager`): remembers only the
context it created. -/
structure ScopeManagerState where
  context : Option Nat
  deriving DecidableEq, Repr

/-- `CallScopeManager.__enter__` (scope.py lines 320-329): create a fresh
context, store it in the CALL context variable (the call-stack frame
bookkeeping is not modelled). -/
def callEnter (s : ScopeVars) : ScopeManagerState × ScopeVars :=
  let cid := s.nextId
  (⟨some cid⟩, { s with callVar := some cid, nextId := s.nextId + 1 })

/-- `CallScopeManager.__exit__` (scope.py lines 331-336): close the
manager's context and then unconditionally set the CALL context variable to
`None` (resource closing is modelled separately by `closeAll`). -/
def callExit (_m : ScopeManagerState) (s : ScopeVars) : ScopeVars :=
  { s with callVar := none }

/-- `RequestScopeManager.__enter__` (scope.py lines 291-294). -/
def requestEnter (s : ScopeVars) : ScopeManagerState × ScopeVars :=
  let cid := s.nextId
  (⟨some cid⟩, { s with requestVar := some cid, nextId := s.nextId + 1 })

/-- `RequestScopeManager.__exit__` (scope.py lines 296-299): close the
manager's context, then unconditionally set the REQUEST variable to
`None`. -/
def requestExit (_m : ScopeManagerState) (s : ScopeVars) : ScopeVars :=
  { s with requestVar := none }

/-- C10: exiting a CALL scope (likewise a REQUEST scope) unconditionally
clears the task-local active context instead of restoring the previous one:
after two nested CALL scopes on one task and an inner exit, no CALL context
is active and the outer context (which was distinct from the inner one) is
no longer reachable through `get_scope_context`; the same holds for nested
REQUEST scopes. -/
theorem c10_scope_exit_clears_context (s : ScopeVars) (htx : s.txVar = none) :
    (let p1 := callEnter s
     let p2 := callEnter p1.2
     let s3 := callExit p2.1 p2.2
     getScopeContext Scope.CALL s3 = none ∧
     p1.1.context ≠ p2.1.context ∧
     p1.1.context = some s.nextId ∧
     getScopeContext Scope.CALL p2.2 = p2.1.context) ∧
    (let q1 := requestEnter s
     let q2 := requestEnter q1.2
     let t3 := requestExit q2.1 q2.2
     getScopeContext Scope.REQUEST t3 = none ∧
     q1.1.context ≠ q2.1.context) := by
  refine ⟨⟨?_, ?_, rfl, ?_⟩, ⟨rfl, ?_⟩⟩
  · simp [callEnter, callExit, getScopeContext, htx]
  · simp [callEnter]
  · simp [callEnter, getScopeContext, htx]
  · simp [requestEnter]

/-- C10 witness: concrete nested CALL and REQUEST scopes starting from an
empty task state. -/
theorem c10_scope_exit_clears_context_witness :
    getScopeContext Scope.CALL
      (callExit (callEnter (callEnter ⟨none, none, none, 0⟩).2).1
        (callEnter (callEnter ⟨none, none, none, 0⟩).2).2) = none ∧
    getScopeContext Scope.CALL (callEnter ⟨none, none, none, 0⟩).2 = some 0 := by
  have h := c10_scope_exit_clears_context ⟨none, none, none, 0⟩ rfl
  exact ⟨h.1.1, by simp [callEnter, getScopeContext]⟩

end Bloom

namespace Bloom

/-! ## Singleton factories (factory.py, manager/registry.py) -/

/-- State of one `FactoryContainer` and its producer: `cache` is
`_cached_instance`, `producerCalls` counts invocations of the producer
method, `nextInst` mints the identity of the next produced instance. -/
structure FactoryState where
  cache : Option Nat
  producerCalls : Nat
  nextInst : Nat
  deriving DecidableEq, Repr

/-- `FactoryContainer.create_instance` (factory.py lines 110-150): a
SINGLETON-scoped factory with a cached instance returns it; otherwise the
producer method runs (dependency resolution elided) and, for SINGLETON
scope, its result is cached. -/
def createInstance (scope : Scope) (s : FactoryState) : Nat × FactoryState :=
  match scope, s.cache with
  | Scope.SINGLETON, some cached => (cached, s)
  | _, _ =>
    let result := s.nextInst
    let s1 := { s with producerCalls := s.producerCalls + 1,
                       nextInst := s.nextInst + 1 }
    if scope = Scope.SINGLETON then (result, { s1 with cache := some result })
    else (result, s1)

/-- `ContainerRegistry.factory` (manager/registry.py lines 227-251) for a
single matching factory: first look for a cached instance across the
configurations (`get_cached_factory`), else locate the configuration and
produce via `create_factory`, which calls `create_instance`. -/
def registryFactory (scope : Scope) (s : FactoryState) : Nat × FactoryState :=
  match s.cache with
  | some cached => (cached, s)
  | none => createInstance scope s

/-- Repeated calls of the factory-resolution API, collecting the returned
instances. -/
def iterateFactory (scope : Scope) : Nat → FactoryState → List Nat × FactoryState
  | 0, s => ([], s)
  | n + 1, s =>
    let p := registryFactory scope s
    let q := iterateFactory scope n p.2
    (p.1 :: q.1, q.2)

theorem registryFactory_cached (scope : Scope) (s : FactoryState) (i : Nat)
    (h : s.cache = some i) : registryFactory scope s = (i, s) := by
  simp [registryFactory, h]

theorem iterateFactory_cached (scope : Scope) (n : Nat) (s : FactoryState)
    (i : Nat) (h : s.cache = some i) :
    iterateFactory scope n s = (List.replicate n i, s) := by
  induction n with
  | zero => simp [iterateFactory]
  | succ m ih => simp [iterateFactory, registryFactory_cached scope s i h, ih,
      List.replicate_succ]

/-- C4: singleton factory idempotence. Starting from a SINGLETON factory
with an empty cache, `N + 1` calls of the factory-resolution API all return
the very same instance (the one produced by the first call) and the
producer method runs exactly once; afterwards that instance is the cached
one, so any later phase reuses it too. -/
theorem c4_singleton_factory_idempotent (n : Nat) (s : FactoryState)
    (h : s.cache = none) :
    (iterateFactory Scope.SINGLETON (n + 1) s).1 =
      List.replicate (n + 1) s.nextInst ∧
    (iterateFactory Scope.SINGLETON (n + 1) s).2.producerCalls =
      s.producerCalls + 1 ∧
    (iterateFactory Scope.SINGLETON (n + 1) s).2.cache = some s.nextInst := by
  have hfirst : registryFactory Scope.SINGLETON s =
      (s.nextInst, { s with cache := some s.nextInst,
                            producerCalls := s.producerCalls + 1,
                            nextInst := s.nextInst + 1 }) := by
    simp [registryFactory, createInstance, h]
  have hrest := iterateFactory_cached Scope.SINGLETON n
    { s with cache := some s.nextInst,
             producerCalls := s.producerCalls + 1,
             nextInst := s.nextInst + 1 } s.nextInst rfl
  refine ⟨?_, ?_, ?_⟩ <;>
    simp [iterateFactory, hfirst, hrest, List.replicate_succ]

/-- C4 witness: three consecutive resolutions of a fresh SINGLETON factory
return the same instance and invoke the producer once. -/
theorem c4_singleton_factory_idempotent_witness :
    (iterateFactory Scope.SINGLETON 3 ⟨none, 0, 100⟩).1 = [100, 100, 100] ∧
    (iterateFactory Scope.SINGLETON 3 ⟨none, 0, 100⟩).2.producerCalls = 1 := by
  have h := c4_singleton_factory_idempotent 2 ⟨none, 0, 100⟩ rfl
  exact ⟨by simpa using h.1, h.2.1⟩

end Bloom

namespace Bloom

/-! ## ScopedProxy synchronous resolution (proxy.py lines 251-314) -/

/-- Errors a `ScopedProxy._sp_resolve` call can raise. -/
inductive SpErr where
  | singletonNotInitialized
  | noConfiguration
  | asyncFactorySyncContext
  | missingCreateFactorySyncAttr
  deriving DecidableEq, Repr

/-- The factory behind a `ScopedProxy`: its component id and whether the
producer method is asynchronous. -/
structure SpFactory where
  componentId : Nat
  isAsync : Bool
  deriving DecidableEq, Repr

/-- Environment a resolution runs in: the cached singleton instance across
configurations, the active scope context's instance store (component id to
instance), and whether `configuration_for` finds a configuration. -/
structure SpEnv where
  singletonCache : Option Nat
  activeCtx : Option (List (Nat × Nat))
  configExists : Bool
  deriving DecidableEq, Repr

/-- `ScopeContext.get`: look up an instance by component id. -/
def ctxLookup (store : List (Nat × Nat)) (cid : Nat) : Option Nat :=
  (store.find? (fun p => p.1 == cid)).map (fun p => p.2)

/-- Tail of `_sp_resolve` past the context lookup: `configuration_for`
check, the async-factory guard, and then the call
`config._create_factory_sync(factory.return_type)` — a method that
`ConfigurationContainer` (factory.py) does not define (only the never
called `FactoryContainer.create_instance_sync` exists), so the call raises
`AttributeError`, modelled as `missingCreateFactorySyncAttr`. -/
def spProduce (f : SpFactory) (env : SpEnv) : Except SpErr Nat :=
  if !env.configExists then Except.error SpErr.noConfiguration
  else if f.isAsync then Except.error SpErr.asyncFactorySyncContext
  else Except.error SpErr.missingCreateFactorySyncAttr

/-- `ScopedProxy._sp_resolve` (proxy.py lines 251-314): for SINGLETON scope
return the cached instance or raise; otherwise return an existing instance
from the active scope context, else fall through to production. -/
def spResolve (scope : Scope) (f : SpFactory) (env : SpEnv) : Except SpErr Nat :=
  if scope = Scope.SINGLETON then
    match env.singletonCache with
    | some cached => Except.ok cached
    | none => Except.error SpErr.singletonNotInitialized
  else
    match env.activeCtx with
    | some store =>
      match ctxLookup store f.componentId with
      | some existing => Except.ok existing
      | none => spProduce f env
    | none => spProduce f env

/-- C5 evaluation: the resolution branches that match the claim do hold —
an instance already in the active context is returned, a cached SINGLETON
is returned, an unproduced SINGLETON raises, an async factory raises — but
at the claimed synchronous-production branch (CALL scope, synchronous
factory, configuration present, no instance in the active context) the code
raises `AttributeError` because `_create_factory_sync` does not exist,
instead of producing, entering and registering an instance. -/
theorem c5_scoped_proxy_sync_resolution_paths :
    spResolve Scope.CALL ⟨5, false⟩ ⟨none, some [(5, 42)], true⟩ =
      Except.ok 42 ∧
    spResolve Scope.SINGLETON ⟨5, false⟩ ⟨some 9, none, true⟩ =
      Except.ok 9 ∧
    spResolve Scope.SINGLETON ⟨5, false⟩ ⟨none, none, true⟩ =
      Except.error SpErr.singletonNotInitialized ∧
    spResolve Scope.CALL ⟨5, true⟩ ⟨none, some [], true⟩ =
      Except.error SpErr.asyncFactorySyncContext ∧
    spResolve Scope.CALL ⟨5, false⟩ ⟨none, some [], true⟩ =
      Except.error SpErr.missingCreateFactorySyncAttr ∧
    spResolve Scope.REQUEST ⟨5, false⟩ ⟨none, some [], true⟩ =
      Except.error SpErr.missingCreateFactorySyncAttr := by
  refine ⟨rfl, rfl, rfl, rfl, rfl, rfl⟩

end Bloom

namespace Bloom

/-! ## Lifecycle shutdown (manager/lifecycle.py lines 72-77) -/

/-- A registered container as the shutdown walk sees it: its identity and
whether its shutdown hook raises. -/
structure ShutCont where
  sid : Nat
  failsOnShutdown : Bool
  deriving DecidableEq, Repr

/-- A container's shutdown hook, which may raise. -/
def shutdownHook (c : ShutCont) : Except Nat Unit :=
  if c.failsOnShutdown then Except.error c.sid else Except.ok ()

/-- `ContainerLifecycle.shutdown`: walk the registry snapshot awaiting each
container's shutdown hook. The loop body has no exception handler, so a
raised error aborts the walk and propagates. Returns the hooks actually
invoked and the propagated error, if any. -/
def shutdownAll : List ShutCont → List Nat × Option Nat
  | [] => ([], none)
  | c :: rest =>
    match shutdownHook c with
    | Except.ok _ =>
      let p := shutdownAll rest
      (c.sid :: p.1, p.2)
    | Except.error e => ([c.sid], some e)

/-- C6 counterexample: with two containers in the snapshot where the first
container's shutdown hook raises, the second container's hook is never
called — the error does prevent the shutdown of the remaining container,
so shutdown is not best-effort. -/
theorem c6_shutdown_counterexample :
    shutdownAll [⟨1, true⟩, ⟨2, false⟩] = ([1], some 1) ∧
    (2 : Nat) ∉ (shutdownAll [⟨1, true⟩, ⟨2, false⟩]).1 := by
  refine ⟨rfl, by decide⟩

/-- C6 amended: shutdown walks the registry snapshot calling every
container's shutdown hook in order as long as none raises, but an error
raised while shutting down one container propagates immediately and the
shutdown hooks of all containers after it are not called. -/
theorem c6_shutdown_aborts_on_error (pre post : List ShutCont) (c : ShutCont)
    (hpre : ∀ x, x ∈ pre → x.failsOnShutdown = false)
    (hc : c.failsOnShutdown = true) :
    (∀ l : List ShutCont, (∀ x, x ∈ l → x.failsOnShutdown = false) →
      shutdownAll l = (l.map (fun x => x.sid), none)) ∧
    shutdownAll (pre ++ c :: post) =
      (pre.map (fun x => x.sid) ++ [c.sid], some c.sid) := by
  have hall : ∀ l : List ShutCont, (∀ x, x ∈ l → x.failsOnShutdown = false) →
      shutdownAll l = (l.map (fun x => x.sid), none) := by
    intro l
    induction l with
    | nil => intro _; rfl
    | cons x rest ih =>
      intro hl
      have hx : x.failsOnShutdown = false := hl x (by simp)
      have hr := ih (fun y hy => hl y (by simp [hy]))
      simp [shutdownAll, shutdownHook, hx, hr]
  refine ⟨hall, ?_⟩
  induction pre with
  | nil => simp [shutdownAll, shutdownHook, hc]
  | cons x rest ih =>
    have hx : x.failsOnShutdown = false := hpre x (by simp)
    have hr := ih (fun y hy => hpre y (by simp [hy]))
    simp [shutdownAll, shutdownHook, hx, hr]

/-- C6 witness for the amended claim: a clean snapshot shuts every
container down in order, and a snapshot whose second container raises stops
right there. -/
theorem c6_shutdown_aborts_on_error_witness :
    shutdownAll [⟨1, false⟩, ⟨2, false⟩, ⟨3, false⟩] = ([1, 2, 3], none) ∧
    shutdownAll [⟨1, false⟩, ⟨2, true⟩, ⟨3, false⟩] = ([1, 2], some 2) := by
  have h := c6_shutdown_aborts_on_error [⟨1, false⟩] [⟨3, false⟩] ⟨2, true⟩
    (by intro x hx; simp at hx; simp [hx]) rfl
  refine ⟨?_, ?_⟩
  · exact h.1 [⟨1, false⟩, ⟨2, false⟩, ⟨3, false⟩] (by intro x hx; fin_cases hx <;> rfl)
  · simpa using h.2

end Bloom

namespace Bloom

/-! ## Transactional (shared) scope manager (scope.py lines 357-396) -/

/-- Task-local state for the transactional scope machinery. Scope contexts
are Python objects shared by reference, so they live in `store` keyed by
context identity; `txVar` is the `_transactional_context` context variable,
`closed` the global trace of exit-hook calls on registered closeables. -/
structure TxTask where
  txVar : Option Nat
  store : List (Nat × List Nat)
  closed : List Nat
  nextId : Nat
  deriving DecidableEq, Repr

/-- Closeables currently registered with the context of the given
identity. -/
def storeGet (store : List (Nat × List Nat)) (cid : Nat) : List Nat :=
  ((store.find? (fun p => p.1 == cid)).map (fun p => p.2)).getD []

/-- Replace the closeable list of the context of the given identity. -/
def storeSet (store : List (Nat × List Nat)) (cid : Nat) (v : List Nat) :
    List (Nat × List Nat) :=
  store.map (fun p => if p.1 == cid then (cid, v) else p)

/-- A `TransactionalScopeManager`: `context` is `self._context`, `previous`
is `self._previous_context`; both start as `None` in `__init__`. -/
structure TxManager where
  context : Option Nat
  previous : Option Nat
  deriving DecidableEq, Repr

/-- `TransactionalScopeManager.__enter__` (scope.py lines 364-374): when a
transactional context is already active it is reused and returned at once
(`self._previous_context` is left untouched, hence still `None`); otherwise
a fresh context is created, `self._previous_context` is read from the
context variable (necessarily still `None` here) and the fresh context is
activated. -/
def txEnter (s : TxTask) : TxManager × TxTask :=
  match s.txVar with
  | some existing => (⟨some existing, none⟩, s)
  | none =>
    let cid := s.nextId
    (⟨some cid, s.txVar⟩,
     { s with txVar := some cid,
              store := s.store ++ [(cid, [])],
              nextId := s.nextId + 1 })

/-- `ScopeContext.register_closeable` on the active transactional
context. -/
def txRegisterCloseable (rid : Nat) (s : TxTask) : TxTask :=
  match s.txVar with
  | some cid =>
    { s with store := storeSet s.store cid (storeGet s.store cid ++ [rid]) }
  | none => s

/-- `TransactionalScopeManager.__exit__` (scope.py lines 376-380): when
`self._previous_context is None` and `self._context` is set, the manager
calls `close_all` on its context (closing registered closeables in reverse
order and clearing the list) and clears the transactional context
variable. -/
def txExit (m : TxManager) (s : TxTask) : TxTask :=
  if m.previous = none ∧ m.context ≠ none then
    match m.context with
    | some cid =>
      { s with closed := s.closed ++ (storeGet s.store cid).reverse,
               store := storeSet s.store cid [],
               txVar := none }
    | none => s
  else s

/-- The nested shared-scope scenario: enter an outer shared scope, register
a closeable with it, enter a nested shared scope, and exit only the nested
scope. -/
def txNestedScenario : TxManager × TxManager × TxTask :=
  let p1 := txEnter ⟨none, [], [], 0⟩
  let s2 := txRegisterCloseable 7 p1.2
  let p2 := txEnter s2
  (p1.1, p2.1, txExit p2.1 p2.2)

/-- C8 evaluation at the failing input: the inner `txEnter` does reuse and
return the outer context (the managers hold the same context, and no second
context was created), but because the reuse branch never records that the
manager did not create the context, `_previous_context` is `None` on the
inner manager too, so the inner exit closes the outer context's registered
closeable and clears the task-local transactional context variable —
after the inner block exits, the closeable with identity 7 has been closed
and no shared context is active, while the outer block is still open. -/
theorem c8_nested_shared_scope_inner_exit_closes :
    txNestedScenario.1.context = txNestedScenario.2.1.context ∧
    txNestedScenario.1.context = some 0 ∧
    txNestedScenario.2.2.nextId = 1 ∧
    txNestedScenario.2.1.previous = none ∧
    txNestedScenario.2.2.closed = [7] ∧
    txNestedScenario.2.2.txVar = none := by
  refine ⟨rfl, rfl, rfl, rfl, rfl, rfl⟩

end Bloom

namespace Bloom

/-! ## Closeable capability check (abstract/autocloseable.py, proxy.py,
scope.py) -/

/-- A produced instance as the capability check sees it:
`hasEnterExitHooks` says the object structurally exposes enter/exit hooks,
`inheritsAutoCloseable` says its class inherits from (or is registered as a
virtual subclass of) the `AutoCloseable` abstract base class. -/
structure PyObj where
  oid : Nat
  hasEnterExitHooks : Bool
  inheritsAutoCloseable : Bool
  deriving DecidableEq, Repr

/-- The check the code performs: `isinstance(instance, AutoCloseable)`
where `AutoCloseable` (abstract/autocloseable.py lines 5-8) is a plain
`ABC` with abstract `__enter__`/`__exit__` and no `__subclasshook__`, so
the check is nominal: it holds exactly when the instance's class is a
(possibly virtually registered) subclass of `AutoCloseable`. -/
def isinstanceAutoCloseable (o : PyObj) : Bool :=
  o.inheritsAutoCloseable

/-- Modelled from the spec: the capability check the spec describes — an
object "exposing synchronous or asynchronous enter/exit hooks used purely
structurally (duck-typed), not via inheritance from a specific base". -/
def specCloseableCheck (o : PyObj) : Bool :=
  o.hasEnterExitHooks

/-- Registration step of `ScopedProxy._sp_resolve` (proxy.py lines
305-312): the produced instance is registered with the active scope context
only when `isinstance(instance, AutoCloseable)` holds. -/
def scopeRegister (o : PyObj) (ctx : List PyObj) : List PyObj :=
  if isinstanceAutoCloseable o then ctx ++ [o] else ctx

/-- `ScopeContext.close_all` over such instances (scope.py lines 185-196):
reverse order, exit hook called only on instances passing the isinstance
check. -/
def scopeCloseAllObjs (ctx : List PyObj) : List Nat :=
  (ctx.reverse.filter (fun o => isinstanceAutoCloseable o)).map (fun o => o.oid)

/-- C9 counterexample: an instance that structurally exposes enter/exit
hooks but whose class does not inherit from `AutoCloseable` satisfies the
spec's duck-typed capability but fails the code's isinstance check, so it
is neither registered with the scope context nor closed on scope exit. -/
theorem c9_closeable_check_counterexample :
    specCloseableCheck ⟨1, true, false⟩ = true ∧
    isinstanceAutoCloseable ⟨1, true, false⟩ = false ∧
    scopeRegister ⟨1, true, false⟩ [] = [] ∧
    scopeCloseAllObjs (scopeRegister ⟨1, true, false⟩ []) = [] := by
  refine ⟨rfl, rfl, rfl, rfl⟩

/-- C9 amended: the closeable capability is checked nominally with
`isinstance` against the `AutoCloseable`/`AsyncAutoCloseable` abstract base
classes: an instance whose class inherits from (or is registered with) the
base is registered with the active scope context and closed on scope exit,
and an instance whose class does not — even one structurally exposing
enter/exit hooks — is not registered. -/
theorem c9_closeable_check_is_nominal (o : PyObj) (ctx : List PyObj) :
    (o.inheritsAutoCloseable = true →
      scopeRegister o ctx = ctx ++ [o] ∧
      o.oid ∈ scopeCloseAllObjs (scopeRegister o ctx)) ∧
    (o.inheritsAutoCloseable = false →
      scopeRegister o ctx = ctx) := by
  constructor
  · intro h
    refine ⟨by simp [scopeRegister, isinstanceAutoCloseable, h], ?_⟩
    simp [scopeRegister, isinstanceAutoCloseable, h, scopeCloseAllObjs]
  · intro h
    simp [scopeRegister, isinstanceAutoCloseable, h]

/-- C9 witness: an inheriting instance is registered and closed; a merely
duck-typed one is skipped. -/
theorem c9_closeable_check_is_nominal_witness :
    scopeRegister ⟨3, false, true⟩ [] = [⟨3, false, true⟩] ∧
    (3 : Nat) ∈ scopeCloseAllObjs (scopeRegister ⟨3, false, true⟩ []) ∧
    scopeRegister ⟨4, true, false⟩ [⟨3, false, true⟩] = [⟨3, false, true⟩] := by
  have h1 := (c9_closeable_check_is_nominal ⟨3, false, true⟩ []).1 rfl
  have h2 := (c9_closeable_check_is_nominal ⟨4, true, false⟩ [⟨3, false, true⟩]).2 rfl
  exact ⟨by simpa using h1.1, h1.2, h2⟩

end Bloom

namespace Bloom

/-! ## Type-based dependency resolution (manager/factory.py lines 174-291) -/

/-- A registered container as type resolution sees it: identity, the class
name used in error messages, and whether a truthy `primary` element is
attached. -/
structure Bean where
  tag : Nat
  name : String
  primary : Bool
  deriving DecidableEq, Repr

/-- One entry of the global `containers` dict: the registered target
(types and callables identified by `Nat`), whether the target is a class
(`isinstance(container_type, type)`), and its `component_id → Container`
dict values in insertion order. -/
structure RegEntry where
  key : Nat
  isType : Bool
  beans : List Bean
  deriving DecidableEq, Repr

/-- The `containers` dict in iteration (insertion) order. -/
abbrev TypeRegistry := List RegEntry

/-- The candidate collection loop of `_find_by_type_with_primary`
(manager/factory.py lines 258-273): walk every registry entry, skip
non-class targets, and gather the containers of every entry whose target is
a subclass of the field type, in iteration order. `sub` is Python's
`issubclass` on registered targets. -/
def eligibleBeans (sub : Nat → Nat → Bool) : TypeRegistry → Nat → List Bean
  | [], _ => []
  | en :: rest, ft =>
    if en.isType && sub en.key ft then en.beans ++ eligibleBeans sub rest ft
    else eligibleBeans sub rest ft

/-- The `primary_candidate` accumulator of the same loop: overwritten by
every candidate carrying a truthy `primary` element, so the last such
candidate in iteration order wins. -/
def lastPrimary : List Bean → Option Bean → Option Bean
  | [], acc => acc
  | b :: rest, acc => lastPrimary rest (if b.primary then some b else acc)

/-- Final value of `primary_candidate` after the scan. -/
def primaryCandidate (sub : Nat → Nat → Bool) (reg : TypeRegistry) (ft : Nat) :
    Option Bean :=
  lastPrimary (eligibleBeans sub reg ft) none

/-- Errors `_find_by_type_with_primary` raises. -/
inductive ResolveErr where
  | ambiguous (names : List String)
  | missing
  deriving DecidableEq, Repr

/-- Decision tail of `_find_by_type_with_primary` (lines 275-291): a
primary candidate wins, else a unique candidate wins, else more than one
candidate is ambiguous (named), else the dependency is missing. -/
def resolveByScan (sub : Nat → Nat → Bool) (reg : TypeRegistry) (ft : Nat) :
    Except ResolveErr Bean :=
  match primaryCandidate sub reg ft with
  | some p => Except.ok p
  | none =>
    match eligibleBeans sub reg ft with
    | [c] => Except.ok c
    | [] => Except.error ResolveErr.missing
    | cs => Except.error (ResolveErr.ambiguous (cs.map (fun b => b.name)))

/-- `ContainerFactory._find_by_type_with_primary` (manager/factory.py lines
241-291): an exact type match in the registry dict with a non-empty
container dict returns its first container; otherwise the subtype scan
decides. -/
def findByTypeWithPrimary (sub : Nat → Nat → Bool) (reg : TypeRegistry)
    (ft : Nat) : Except ResolveErr Bean :=
  match reg.find? (fun en => en.key == ft) with
  | some en =>
    match en.beans with
    | b :: _ => Except.ok b
    | [] => resolveByScan sub reg ft
  | none => resolveByScan sub reg ft

/-- Error handling of `ContainerFactory.inject_dependencies`
(manager/factory.py lines 196-211) for one qualifier-free dependency: a
resolution failure injects `None` when the dependency is optional and
raises otherwise. -/
def injectResolve (sub : Nat → Nat → Bool) (reg : TypeRegistry) (ft : Nat)
    (isOptional : Bool) : Except String (Option Bean) :=
  match findByTypeWithPrimary sub reg ft with
  | Except.ok b => Except.ok (some b)
  | Except.error _ =>
    if isOptional then Except.ok none
    else Except.error "RuntimeError: cannot resolve dependency"

theorem lastPrimary_of_no_primary (l : List Bean) (acc : Option Bean)
    (h : ∀ a ∈ l, a.primary = false) : lastPrimary l acc = acc := by
  induction l generalizing acc with
  | nil => rfl
  | cons b rest ih =>
    have hb : b.primary = false := h b (by simp)
    simp only [lastPrimary, hb, Bool.false_eq_true, if_false]
    exact ih acc (fun a ha => h a (by simp [ha]))

theorem lastPrimary_of_unique_primary (l : List Bean) (p : Bean)
    (acc : Option Bean) (h : l.filter (fun b => b.primary) = [p]) :
    lastPrimary l acc = some p := by
  induction l generalizing acc with
  | nil => simp at h
  | cons b rest ih =>
    by_cases hb : b.primary = true
    · simp [List.filter_cons, hb] at h
      obtain ⟨hbp, hrest⟩ := h
      subst hbp
      simp only [lastPrimary, hb, if_true]
      exact lastPrimary_of_no_primary rest (some b) hrest
    · simp [List.filter_cons, hb] at h
      simp only [lastPrimary, hb, Bool.false_eq_true, if_false]
      exact ih acc h

/-- C2 counterexample: a field type with no exact registry entry and two
subtype candidates that both carry the `primary` element. The claim demands
an ambiguity failure (no unique primary exists), but the code returns the
candidate scanned last, because the `primary_candidate` slot is silently
overwritten. -/
def c2Sub : Nat → Nat → Bool :=
  fun a b => a == b || (b == 0 && (a == 1 || a == 2))

/-- The registry for the counterexample: targets 1 and 2 both subtypes of
field type 0, each with one primary container. -/
def c2Reg : TypeRegistry :=
  [⟨1, true, [⟨10, "A", true⟩]⟩, ⟨2, true, [⟨11, "B", true⟩]⟩]

/-- C2 counterexample theorem: the scan finds two candidates, both primary,
yet resolution returns candidate B (the one scanned last) instead of
failing with an ambiguity error naming both. -/
theorem c2_two_primaries_counterexample :
    eligibleBeans c2Sub c2Reg 0 = [⟨10, "A", true⟩, ⟨11, "B", true⟩] ∧
    ((eligibleBeans c2Sub c2Reg 0).filter (fun b => b.primary)).length = 2 ∧
    findByTypeWithPrimary c2Sub c2Reg 0 = Except.ok ⟨11, "B", true⟩ ∧
    findByTypeWithPrimary c2Sub c2Reg 0 ≠
        Except.error (ResolveErr.ambiguous ["A", "B"]) := by
  refine ⟨rfl, rfl, rfl, by decide⟩

/-- C2 amended: qualifier-free type resolution tries an exact registry
match first; otherwise, among the subtype candidates, a candidate carrying
`primary` is selected (the last-scanned one when several are primary — in
particular the unique one when exactly one is primary); else a unique
candidate is selected; zero candidates fail as a missing dependency (and
the field is injected as `None` exactly when the dependency is optional);
more than one candidate with no primary at all fails with an ambiguity
error naming all candidate type names. -/
theorem c2_type_resolution_amended (sub : Nat → Nat → Bool)
    (reg : TypeRegistry) (ft : Nat) :
    (∀ en b bs, reg.find? (fun x => x.key == ft) = some en →
        en.beans = b :: bs → findByTypeWithPrimary sub reg ft = Except.ok b) ∧
    (reg.find? (fun x => x.key == ft) = none →
      (∀ p, (eligibleBeans sub reg ft).filter (fun b => b.primary) = [p] →
          findByTypeWithPrimary sub reg ft = Except.ok p) ∧
      (∀ p, primaryCandidate sub reg ft = some p →
          findByTypeWithPrimary sub reg ft = Except.ok p) ∧
      (∀ c, eligibleBeans sub reg ft = [c] →
          findByTypeWithPrimary sub reg ft = Except.ok c) ∧
      (eligibleBeans sub reg ft = [] →
          findByTypeWithPrimary sub reg ft = Except.error ResolveErr.missing ∧
          injectResolve sub reg ft true = Except.ok none ∧
          injectResolve sub reg ft false =
            Except.error "RuntimeError: cannot resolve dependency") ∧
      (2 ≤ (eligibleBeans sub reg ft).length →
        (eligibleBeans sub reg ft).filter (fun b => b.primary) = [] →
          findByTypeWithPrimary sub reg ft =
            Except.error (ResolveErr.ambiguous
              ((eligibleBeans sub reg ft).map (fun b => b.name))))) := by
  constructor
  · intro en b bs hfind hbeans
    simp [findByTypeWithPrimary, hfind, hbeans]
  · intro hnone
    have hscan : findByTypeWithPrimary sub reg ft = resolveByScan sub reg ft := by
      simp [findByTypeWithPrimary, hnone]
    refine ⟨?_, ?_, ?_, ?_, ?_⟩
    · intro p hp
      have := lastPrimary_of_unique_primary (eligibleBeans sub reg ft) p none hp
      simp [hscan, resolveByScan, primaryCandidate, this]
    · intro p hp
      simp [hscan, resolveByScan, hp]
    · intro c hc
      rw [hscan]
      unfold resolveByScan
      rw [hc]
      unfold primaryCandidate
      rw [hc]
      by_cases hcp : c.primary = true
      · simp [lastPrimary, hcp]
      · simp [lastPrimary, hcp]
    · intro hempty
      have hpc : primaryCandidate sub reg ft = none := by
        simp [primaryCandidate, hempty, lastPrimary]
      have hres : findByTypeWithPrimary sub reg ft =
          Except.error ResolveErr.missing := by
        simp [hscan, resolveByScan, hpc, hempty]
      refine ⟨hres, ?_, ?_⟩ <;> simp [injectResolve, hres]
    · intro hlen hnoprim
      have hall : ∀ a ∈ eligibleBeans sub reg ft, a.primary = false := by
        intro a ha
        by_cases hp : a.primary = true
        · have hmem : a ∈ (eligibleBeans sub reg ft).filter
              (fun b => b.primary) := List.mem_filter.mpr ⟨ha, hp⟩
          rw [hnoprim] at hmem
          simp at hmem
        · simpa using hp
      have hpc : primaryCandidate sub reg ft = none :=
        lastPrimary_of_no_primary (eligibleBeans sub reg ft) none hall
      rw [hscan]
      unfold resolveByScan
      rw [hpc]
      obtain ⟨a, rest, hcand⟩ : ∃ a rest, eligibleBeans sub reg ft = a :: rest := by
        cases hl : eligibleBeans sub reg ft with
        | nil => rw [hl] at hlen; simp at hlen
        | cons a rest => exact ⟨a, rest, rfl⟩
      obtain ⟨b2, rest2, hrest⟩ : ∃ b2 rest2, rest = b2 :: rest2 := by
        cases hr : rest with
        | nil => rw [hcand, hr] at hlen; simp at hlen
        | cons b2 rest2 => exact ⟨b2, rest2, rfl⟩
      rw [hcand, hrest]

/-- C2 witness for the amended claim: a unique-primary scan selects the
primary candidate, a unique candidate is selected without primary, an empty
scan is a missing dependency injected as `None` when optional, and two
non-primary candidates are an ambiguity naming both. -/
theorem c2_type_resolution_amended_witness :
    findByTypeWithPrimary c2Sub
      [⟨1, true, [⟨10, "A", false⟩]⟩, ⟨2, true, [⟨11, "B", true⟩]⟩] 0 =
      Except.ok ⟨11, "B", true⟩ ∧
    findByTypeWithPrimary c2Sub [⟨1, true, [⟨10, "A", false⟩]⟩] 0 =
      Except.ok ⟨10, "A", false⟩ ∧
    injectResolve c2Sub [] 0 true = Except.ok none ∧
    findByTypeWithPrimary c2Sub
      [⟨1, true, [⟨10, "A", false⟩]⟩, ⟨2, true, [⟨11, "B", false⟩]⟩] 0 =
      Except.error (ResolveErr.ambiguous ["A", "B"]) := by
  refine ⟨?_, ?_, ?_, ?_⟩
  · exact ((c2_type_resolution_amended c2Sub
      [⟨1, true, [⟨10, "A", false⟩]⟩, ⟨2, true, [⟨11, "B", true⟩]⟩] 0).2
      rfl).1 ⟨11, "B", true⟩ rfl
  · exact ((c2_type_resolution_amended c2Sub
      [⟨1, true, [⟨10, "A", false⟩]⟩] 0).2 rfl).2.2.1 ⟨10, "A", false⟩ rfl
  · exact (((c2_type_resolution_amended c2Sub [] 0).2 rfl).2.2.2.1 rfl).2.1
  · exact ((c2_type_resolution_amended c2Sub
      [⟨1, true, [⟨10, "A", false⟩]⟩, ⟨2, true, [⟨11, "B", false⟩]⟩] 0).2
      rfl).2.2.2.2 (by decide) rfl

end Bloom

namespace Bloom

/-! ## Dependency analysis (manager/factory.py lines 37-102, base.py lines
25-34) -/

/-- The dataclass fields of `DependencyInfo` as declared in
`container/base.py` lines 25-34. -/
def dependencyInfoFields : List String :=
  ["field_name", "field_type", "is_optional", "default_value",
   "is_async_proxy", "raw_type_hint"]

/-- The keyword arguments `ContainerFactory.analyze_dependencies` passes to
the `DependencyInfo` constructor (manager/factory.py lines 90-99). -/
def analyzeDependenciesKwargs : List String :=
  ["field_name", "field_type", "is_optional", "default_value",
   "is_async_proxy", "raw_type_hint", "qualifier", "is_lazy"]

/-- A Python dataclass constructor accepts a call exactly when every
keyword argument names a declared field; otherwise it raises `TypeError`
(unexpected keyword argument). -/
def dataclassAcceptsKwargs (fields kwargs : List String) : Bool :=
  kwargs.all (fun k => fields.contains k)

/-- One annotated class field as the analysis loop sees it: its name,
whether the name is private (`name.startswith` on an underscore), and
whether its resolved type is a built-in container/primitive type. -/
structure FieldDecl where
  name : String
  isPrivate : Bool
  isBuiltin : Bool
  deriving DecidableEq, Repr

/-- The field loop of `ContainerFactory.analyze_dependencies`
(manager/factory.py lines 62-102): skip private (underscore-prefixed)
fields and built-in-typed fields, and build one `DependencyInfo` per
remaining field by a dataclass constructor call passing
`analyzeDependenciesKwargs` — which raises `TypeError` when the dataclass
does not declare every keyword. Returns the analyzed field names. -/
def analyzeDependencies : List FieldDecl → Except String (List String)
  | [] => Except.ok []
  | f :: rest =>
    if f.isPrivate then analyzeDependencies rest
    else if f.isBuiltin then analyzeDependencies rest
    else if dataclassAcceptsKwargs dependencyInfoFields analyzeDependenciesKwargs
      then
      match analyzeDependencies rest with
      | Except.ok names => Except.ok (f.name :: names)
      | Except.error e => Except.error e
    else Except.error "TypeError: unexpected keyword argument"

/-- C7 evaluation at the failing input: `DependencyInfo` in
`container/base.py` declares neither a `qualifier` nor an `is_lazy` field,
yet `analyze_dependencies` passes both keywords, so analysing any target
with at least one non-private, non-built-in annotated field (for example a
single field `cache` of a component type) raises `TypeError` instead of
producing a `DependencyInfo` carrying the qualifier name and laziness flag;
only targets whose fields are all skipped escape the crash. -/
theorem c7_analyze_dependencies_type_error :
    dependencyInfoFields.contains "qualifier" = false ∧
    dependencyInfoFields.contains "is_lazy" = false ∧
    dataclassAcceptsKwargs dependencyInfoFields analyzeDependenciesKwargs =
      false ∧
    analyzeDependencies [⟨"cache", false, false⟩] =
      Except.error "TypeError: unexpected keyword argument" ∧
    analyzeDependencies [⟨"_private", true, false⟩, ⟨"count", false, true⟩] =
      Except.ok [] := by
  refine ⟨rfl, rfl, rfl, rfl, rfl⟩

end Bloom
